import Mathlib

set_option maxHeartbeats 1000000

/-!
Verification of the cvescan vulnerability-matching engine specification
against the code in `cvescan/__main__.py` and, for the components that the
CLI module only calls (version comparator, criteria evaluator, scan engine,
output formatters), against models written from the specification text.
-/

/-! ### Version comparator (spec section 4.1)

The Debian-policy-equivalent version comparator.  The comparator code itself
is not part of the CLI module, so it is modelled from the specification:
split `epoch:upstream-revision`, compare the epoch numerically, then compare
upstream and revision by scanning alternating non-digit and digit runs, with
the tilde sorting below the end of the string and letters sorting before
other punctuation. -/

/-- Modelled from the spec: three-way numeric comparison of naturals, used
for epochs and digit runs ("digit runs compare numerically"). -/
def natCmp (a b : Nat) : Ordering :=
  if a < b then .lt else if b < a then .gt else .eq

/-- Modelled from the spec: rank of a character inside a non-digit run.
The tilde sorts lowest (rank 0, below the end-of-string rank 1), letters
(ranks shifted by 2) sort before non-letter punctuation (ranks shifted
by 258).  Digits never occur inside a non-digit run. -/
def charOrd (c : Char) : Nat :=
  if c = '~' then 0
  else if c.isAlpha then c.toNat + 2
  else c.toNat + 258

/-- Modelled from the spec: comparison of a non-digit run against the end of
the other version string; every remaining character is compared with the
end-of-string rank 1, so a remaining tilde makes the longer run smaller. -/
def cmpPadNil : List Nat → Ordering
  | [] => .eq
  | a :: as => (natCmp a 1).then (cmpPadNil as)

/-- Modelled from the spec: character-by-character comparison of two
non-digit runs, where a run that ends is padded with the end-of-string
rank 1 (so the tilde, rank 0, sorts below the empty string). -/
def cmpPad : List Nat → List Nat → Ordering
  | [], bs => (cmpPadNil bs).swap
  | a :: as, [] => (natCmp a 1).then (cmpPad as [])
  | a :: as, b :: bs => (natCmp a b).then (cmpPad as bs)

/-- Modelled from the spec: numeric value of a digit run (leading zeros
ignored, an empty digit run is 0). -/
def digitsVal (l : List Char) : Nat :=
  l.foldl (fun acc c => acc * 10 + (c.toNat - 48)) 0

/-- Modelled from the spec: split a version body into alternating non-digit
and digit runs; each token is the ranked non-digit run together with the
numeric value of the following digit run.  The fuel argument is the length
of the input, which bounds the number of runs because every iteration
consumes at least one character. -/
def tokenizeF : Nat → List Char → List (List Nat × Nat)
  | 0, _ => []
  | _, [] => []
  | fuel + 1, l =>
      (( l.takeWhile (fun c => !c.isDigit)).map charOrd,
        digitsVal ((l.dropWhile (fun c => !c.isDigit)).takeWhile Char.isDigit)) ::
      tokenizeF fuel ((l.dropWhile (fun c => !c.isDigit)).dropWhile Char.isDigit)

/-- Modelled from the spec: the alternating run decomposition of a version
body. -/
def tokenize (l : List Char) : List (List Nat × Nat) :=
  tokenizeF l.length l

/-- Modelled from the spec: comparison of a token list against an exhausted
version body: a missing non-digit run is empty and a missing digit run is 0. -/
def cmpTokensNil : List (List Nat × Nat) → Ordering
  | [] => .eq
  | (s, n) :: ts => (cmpPad s []).then ((natCmp n 0).then (cmpTokensNil ts))

/-- Modelled from the spec: run-by-run comparison of two token lists; the
non-digit runs are compared character-by-character and the digit runs
numerically, and the exhausted side is padded with empty runs and zeros. -/
def cmpTokens : List (List Nat × Nat) → List (List Nat × Nat) → Ordering
  | [], ts => (cmpTokensNil ts).swap
  | (s, n) :: ts, [] => (cmpPad s []).then ((natCmp n 0).then (cmpTokens ts []))
  | (s, n) :: ts, (t, m) :: ts2 =>
      (cmpPad s t).then ((natCmp n m).then (cmpTokens ts ts2))

/-- Modelled from the spec: the numeric epoch of a version string (the part
before the first colon; a missing epoch defaults to 0) together with the
rest of the string. -/
def splitEpoch (s : List Char) : Nat × List Char :=
  if s.contains ':' then
    (digitsVal ((s.takeWhile (fun c => c ≠ ':')).takeWhile Char.isDigit),
     (s.dropWhile (fun c => c ≠ ':')).drop 1)
  else (0, s)

/-- Modelled from the spec: split the version body at the last hyphen into
upstream and revision; with no hyphen the revision is empty. -/
def splitRev (s : List Char) : List Char × List Char :=
  if s.contains '-' then
    (((s.reverse.dropWhile (fun c => c ≠ '-')).drop 1).reverse,
     (s.reverse.takeWhile (fun c => c ≠ '-')).reverse)
  else (s, [])

/-- The epoch of a version string. -/
def epochOf (s : String) : Nat :=
  (splitEpoch s.data).1

/-- The tokenized upstream part of a version string. -/
def upstreamOf (s : String) : List (List Nat × Nat) :=
  tokenize (splitRev (splitEpoch s.data).2).1

/-- The tokenized revision part of a version string. -/
def revisionOf (s : String) : List (List Nat × Nat) :=
  tokenize (splitRev (splitEpoch s.data).2).2

/-- Modelled from the spec: the version comparator, `compare(a, b)` in the
specification.  Epoch compared numerically first, then the upstream part,
then the revision part, each with the alternating-run sub-algorithm. -/
def versionCompare (a b : String) : Ordering :=
  (natCmp (epochOf a) (epochOf b)).then
    ((cmpTokens (upstreamOf a) (upstreamOf b)).then
      (cmpTokens (revisionOf a) (revisionOf b)))

example : versionCompare "1.0" "1.0.1" = .lt := by decide
example : versionCompare "1.0~rc1" "1.0" = .lt := by decide
example : versionCompare "2:1.0" "1:9.0" = .gt := by decide
example : versionCompare "1.0" "1.0" = .eq := by decide
example : versionCompare "1.9-1" "2.0-1" = .lt := by decide
example : versionCompare "1:0.1" "0:9.9" = .gt := by decide
example : versionCompare "1.0~beta1" "1.0" = .lt := by decide

/-- Composability of three-way comparisons across a common middle point:
whatever the first two comparisons determine about the third one.  Used to
state transitivity for all the comparison layers at once. -/
def transOk (o1 o2 o3 : Ordering) : Prop :=
  (o1 = .lt → o2 ≠ .gt → o3 = .lt) ∧
  (o1 = .eq → o3 = o2) ∧
  (o2 = .eq → o3 = o1) ∧
  (o1 = .gt → o2 ≠ .lt → o3 = .gt)

/-! ### Criteria evaluator and scan engine (spec sections 4.2 and 4.3)

The scan engine (`CVEScanner.scan`) and the criteria evaluator are called
from `__main__.py` but their code is not under `src/`, so they are modelled
from the specification. -/

/-- The installed-package snapshot: a mapping from package name to installed
version string, realized as an association list looked up by exact name
match. -/
def pkgLookup (installed : List (String × String)) (p : String) : Option String :=
  match installed with
  | [] => none
  | (k, v) :: rest => if p = k then some v else pkgLookup rest p

/-- Modelled from the spec: a criteria leaf matches when its package name is
present in the installed mapping and either no fixed version exists (null,
always affected) or the installed version compares less than the fixed
version. -/
def leafMatches (packageName : String) (fixedVersion : Option String)
    (installed : List (String × String)) : Bool :=
  match pkgLookup installed packageName with
  | none => false
  | some installedVersion =>
      match fixedVersion with
      | none => true
      | some fixedV => versionCompare installedVersion fixedV == Ordering.lt

/-- Modelled from the spec: the priority enumeration of a vulnerability
record. -/
inductive Priority where
  | critical
  | high
  | medium
  | negligible
  | unknown
deriving DecidableEq

/-- Modelled from the spec: the criteria condition tree, a tagged-variant
tree whose leaves are package constraints and whose internal nodes combine
ordered children with AND or OR. -/
inductive CriteriaTree where
  | leaf (packageName : String) (fixedVersion : Option String)
  | conj (children : List CriteriaTree)
  | disj (children : List CriteriaTree)

mutual

/-- Modelled from the spec: criteria evaluation; an AND node matches iff all
children match and an OR node matches iff any child matches. -/
def evalTree (installed : List (String × String)) : CriteriaTree → Bool
  | .leaf p f => leafMatches p f installed
  | .conj cs => evalConj installed cs
  | .disj cs => evalDisj installed cs

/-- All children of an AND node match. -/
def evalConj (installed : List (String × String)) : List CriteriaTree → Bool
  | [] => true
  | c :: cs => evalTree installed c && evalConj installed cs

/-- Some child of an OR node matches. -/
def evalDisj (installed : List (String × String)) : List CriteriaTree → Bool
  | [] => false
  | c :: cs => evalTree installed c || evalDisj installed cs

end

/-- Modelled from the spec: the verdict of a scan result. -/
inductive ScanStatus where
  | vulnerable
  | notAffected
deriving DecidableEq

/-- Modelled from the spec: the per-vulnerability scan result. -/
structure ScanResult where
  vulnerabilityId : String
  priority : Priority
  status : ScanStatus
deriving DecidableEq

/-- Modelled from the spec: one entry of the vulnerability feed. -/
structure VulnerabilityRecord where
  id : String
  priority : Priority
  applicableReleases : List String
  criteria : CriteriaTree

/-- Modelled from the spec: the verdict for a single feed record in default
(filtered) mode: records not applicable to the release produce no result,
matched criteria produce a vulnerable result, unmatched records are dropped. -/
def scanRecord (codename : String) (installed : List (String × String))
    (r : VulnerabilityRecord) : Option ScanResult :=
  if r.applicableReleases.contains codename then
    if evalTree installed r.criteria then
      some ⟨r.id, r.priority, .vulnerable⟩
    else none
  else none

/-- Modelled from the spec: the scan engine, steps 1 to 3 of section 4.3 in
default mode; the feed is processed in feed-iteration order.  Records with
structurally invalid criteria (the engine-fatal case of section 4.3) are
outside this fragment. -/
def scan (codename : String) (feed : List VulnerabilityRecord)
    (installed : List (String × String)) : List ScanResult :=
  feed.filterMap (scanRecord codename installed)

/-! ### Two package-source providers (`get_installed_pkgs_and_codename`) -/

/-- The system-information collaborator as consumed by
`get_installed_pkgs_and_codename`: the live package database and the local
distribution codename. -/
structure SysInfo where
  installedPackages : List (String × String)
  distribCodename : String

/-- `get_installed_pkgs_and_codename` from `__main__.py`: a truthy manifest
file path selects the manifest parser, otherwise the live system data is
used.  The manifest parser itself is an external collaborator passed as a
function. -/
def get_installed_pkgs_and_codename
    (parse_manifest_file : String → List (String × String) × String)
    (sysinfo : SysInfo) (manifestFile : Option String) :
    List (String × String) × String :=
  match manifestFile with
  | some f =>
      if f ≠ "" then parse_manifest_file f
      else (sysinfo.installedPackages, sysinfo.distribCodename)
  | none => (sysinfo.installedPackages, sysinfo.distribCodename)

/-! ### Output formatter selection (`load_output_formatter`) -/

/-- The options object consumed by `__main__.py` (the `Options` class is an
external collaborator; only the fields read by the CLI module are modelled). -/
structure Opt where
  cve : Option String
  priority : String
  nagiosMode : Bool
  manifestFile : Option String
  silent : Bool
  unresolved : Bool

/-- The three output formatters `load_output_formatter` can return. -/
inductive OutputFormatter where
  | cveFormatter
  | nagiosFormatter
  | cliFormatter
deriving DecidableEq

/-- Python truthiness of an optional string option: set and non-empty. -/
def optTruthy (o : Option String) : Bool :=
  match o with
  | none => false
  | some s => s != ""

/-- `load_output_formatter` from `__main__.py`: a truthy CVE option selects
the CVE formatter before the nagios-mode branch is ever consulted. -/
def load_output_formatter (opt : Opt) : OutputFormatter :=
  if optTruthy opt.cve then .cveFormatter
  else if opt.nagiosMode then .nagiosFormatter
  else .cliFormatter

/-- Modelled from the spec: the CVE-specific output formatter keeps only the
records whose vulnerability id is the requested one; all others are dropped
regardless of priority (`CVEOutputFormatter` is not under `src/`). -/
def cveFormatterResults (cveId : String) (results : List ScanResult) :
    List ScanResult :=
  results.filter (fun r => r.vulnerabilityId == cveId)

/-! ### Argument parsing (`parse_args`) -/

/-- Modelled from the spec: the priority level constants of
`cvescan.constants` (not under `src/`), the admissible values of the
`--priority` choice list. -/
def priorityChoices : List String :=
  ["critical", "high", "medium", "all"]

/-- What the caller supplied on the command line: each option either absent
or given. -/
structure CliInput where
  cve : Option String
  priority : Option String
  silent : Bool
  ovalFile : Option String
  manifestFile : Option String
  nagios : Bool
  uctLinks : Bool
  unresolved : Bool
  verbose : Bool
  experimental : Bool

/-- The parsed argument namespace produced by `parse_args`. -/
structure CliArgs where
  cve : Option String
  priority : String
  silent : Bool
  ovalFile : Option String
  manifestFile : Option String
  nagios : Bool
  uctLinks : Bool
  unresolved : Bool
  verbose : Bool
  experimental : Bool

/-- The long option strings registered on the argument parser in
`parse_args` of `__main__.py`, in registration order. -/
def recognizedLongOptions : List String :=
  ["--cve", "--priority", "--silent", "--oval-file", "--manifest-file",
   "--nagios", "--uct-links", "--unresolved", "--verbose", "--experimental"]

/-- `parse_args` from `__main__.py`: argparse validates `--priority` against
the choices list and rejects any other value; an absent `--priority`
defaults to "high", and the boolean flags default to false when absent
(defaults are part of the caller-supplied `CliInput` here). -/
def parse_args (inp : CliInput) : Except String CliArgs :=
  match inp.priority with
  | some p =>
      if priorityChoices.contains p then
        .ok ⟨inp.cve, p, inp.silent, inp.ovalFile, inp.manifestFile, inp.nagios,
             inp.uctLinks, inp.unresolved, inp.verbose, inp.experimental⟩
      else .error ("argument -p/--priority: invalid choice: " ++ p)
  | none =>
      .ok ⟨inp.cve, "high", inp.silent, inp.ovalFile, inp.manifestFile, inp.nagios,
           inp.uctLinks, inp.unresolved, inp.verbose, inp.experimental⟩

/-! ### The `main` control flow of `__main__.py` -/

/-- The return-code constants of `cvescan.constants` as read by
`__main__.py`; their concrete values live outside `src/`, so the model is
parametric in them. -/
structure Consts where
  errorReturnCode : Int
  cliErrorReturnCode : Int
  nagiosUnknownReturnCode : Int

/-- The milestones of one `main` run, in program order. -/
inductive MainEvent where
  | optionsCreated
  | installedGathered
  | feedLoaded
  | scanRun
  | outputFormatted
  | resultsEmitted
deriving DecidableEq

/-- The observable outcome of one `main` run: the event trace, the lines
printed to stderr, the result text printed to stdout, and the process exit
code. -/
structure MainOutcome where
  events : List MainEvent
  stderrLines : List String
  stdoutLines : List String
  exitCode : Int
deriving DecidableEq

/-- The exception classes caught around `get_installed_pkgs_and_codename`
in `main`. -/
inductive InstallError where
  | fileNotFoundOrPermission (msg : String)
  | distribId (msg : String)
  | pkgCount (msg : String)

/-- The stderr message `main` prints for each install-phase exception. -/
def installErrorMsg : InstallError → String
  | .fileNotFoundOrPermission m =>
      "Error: Failed to determine the correct Ubuntu codename: " ++ m
  | .distribId m =>
      "Error: Invalid linux distribution detected, CVEScan must be run on Ubuntu: " ++ m
  | .pkgCount m =>
      "Error: Failed to determine the local package count: " ++ m

/-- Whether a fallible step raised. -/
def exceptFailed {ε α : Type} : Except ε α → Bool
  | .error _ => true
  | .ok _ => false

/-- The effectful collaborators `main` drives, each modelled as the result
it would produce when reached: options construction, package/codename
gathering, the snap chdir, feed loading, the scanner, and the output
formatter. -/
structure MainEnv where
  consts : Consts
  mkOptions : Except String Opt
  getInstalled : Except InstallError (List (String × String) × String)
  isSnap : Bool
  chdirToSnapCommon : Except String Unit
  loadUctData : Except String (List VulnerabilityRecord)
  runScan : String → List VulnerabilityRecord → List (String × String) →
      Except String (List ScanResult)
  formatOutput : List ScanResult → Except String (String × Int)

/-- An `error_exit` outcome: one message on stderr, nothing on stdout, and
the given exit code. -/
def errOutcome (events : List MainEvent) (msg : String) (code : Int) :
    MainOutcome :=
  { events := events, stderrLines := [msg], stdoutLines := [], exitCode := code }

/-- The `main` function of `__main__.py` from the `Options` construction
onward: option errors exit with the CLI error code; install-phase errors
exit with the generic error code; the snap chdir and the
load/scan/format block exit with the nagios-dependent error code on any
exception; on success the formatted results are logged to stdout (unless
silent) and the formatter's return code becomes the exit code. -/
def mainModel (env : MainEnv) : MainOutcome :=
  match env.mkOptions with
  | .error e =>
      errOutcome [] ("Error: Invalid option or argument: " ++ e)
        env.consts.cliErrorReturnCode
  | .ok opt =>
      match env.getInstalled with
      | .error ie =>
          errOutcome [.optionsCreated] (installErrorMsg ie)
            env.consts.errorReturnCode
      | .ok (installedPkgs, codename) =>
          match (if env.isSnap then env.chdirToSnapCommon else .ok ()) with
          | .error _ =>
              errOutcome [.optionsCreated, .installedGathered]
                "Error: failed to cd to snap user common"
                (if opt.nagiosMode then env.consts.nagiosUnknownReturnCode
                 else env.consts.errorReturnCode)
          | .ok _ =>
              match env.loadUctData with
              | .error e =>
                  errOutcome [.optionsCreated, .installedGathered]
                    ("Error: An unexpected error occurred while running CVEScan: " ++ e)
                    (if opt.nagiosMode then env.consts.nagiosUnknownReturnCode
                     else env.consts.errorReturnCode)
              | .ok uct =>
                  match env.runScan codename uct installedPkgs with
                  | .error e =>
                      errOutcome [.optionsCreated, .installedGathered, .feedLoaded]
                        ("Error: An unexpected error occurred while running CVEScan: " ++ e)
                        (if opt.nagiosMode then env.consts.nagiosUnknownReturnCode
                         else env.consts.errorReturnCode)
                  | .ok scanResults =>
                      match env.formatOutput scanResults with
                      | .error e =>
                          errOutcome
                            [.optionsCreated, .installedGathered, .feedLoaded, .scanRun]
                            ("Error: An unexpected error occurred while running CVEScan: " ++ e)
                            (if opt.nagiosMode then env.consts.nagiosUnknownReturnCode
                             else env.consts.errorReturnCode)
                      | .ok (results, returnCode) =>
                          { events := [.optionsCreated, .installedGathered, .feedLoaded,
                                       .scanRun, .outputFormatted, .resultsEmitted],
                            stderrLines := [],
                            stdoutLines := if opt.silent then [] else [results],
                            exitCode := returnCode }

/-! ### Concrete fixtures used by witness theorems -/

/-- A default options object: no CVE filter, high priority, no nagios. -/
def sampleOpt : Opt :=
  { cve := none, priority := "high", nagiosMode := false, manifestFile := none,
    silent := false, unresolved := false }

/-- An options object with nagios mode enabled. -/
def sampleNagiosOpt : Opt :=
  { cve := none, priority := "high", nagiosMode := true, manifestFile := none,
    silent := false, unresolved := false }

/-- An options object requesting one specific CVE, with nagios mode also
enabled. -/
def sampleCveOpt : Opt :=
  { cve := some "CVE-2020-1234", priority := "high", nagiosMode := true,
    manifestFile := none, silent := false, unresolved := false }

/-- A concrete choice of return-code constants. -/
def sampleConsts : Consts :=
  { errorReturnCode := 4, cliErrorReturnCode := 3, nagiosUnknownReturnCode := 3 }

/-- A one-record feed: CVE-2099-0001 affects libfoo before 2.0-1 on jammy. -/
def sampleFeed : List VulnerabilityRecord :=
  [{ id := "CVE-2099-0001", priority := .high, applicableReleases := ["jammy"],
     criteria := .leaf "libfoo" (some "2.0-1") }]

/-- A concrete scan result. -/
def sampleResult : ScanResult :=
  { vulnerabilityId := "CVE-2099-0002", priority := .high, status := .vulnerable }

/-- A concrete system-information record. -/
def sampleSysInfo : SysInfo :=
  { installedPackages := [("bash", "5.0")], distribCodename := "jammy" }

/-- A concrete manifest parser collaborator. -/
def sampleManifestParse : String → List (String × String) × String :=
  fun _ => ([("pkg", "1.0")], "focal")

/-- A run whose feed load raises. -/
def envLoadFail : MainEnv :=
  { consts := sampleConsts, mkOptions := .ok sampleOpt,
    getInstalled := .ok ([("libfoo", "1.9-1")], "jammy"),
    isSnap := false, chdirToSnapCommon := .ok (),
    loadUctData := .error "corrupt feed",
    runScan := fun _ _ _ => .ok [], formatOutput := fun _ => .ok ("", 0) }

/-- A nagios-mode run whose scanner raises. -/
def envNagiosScanFail : MainEnv :=
  { consts := sampleConsts, mkOptions := .ok sampleNagiosOpt,
    getInstalled := .ok ([("libfoo", "1.9-1")], "jammy"),
    isSnap := false, chdirToSnapCommon := .ok (),
    loadUctData := .ok sampleFeed,
    runScan := fun _ _ _ => .error "boom", formatOutput := fun _ => .ok ("", 0) }

/-- A run whose Options construction raises. -/
def envOptFail : MainEnv :=
  { consts := sampleConsts, mkOptions := .error "invalid priority",
    getInstalled := .ok ([], "jammy"),
    isSnap := false, chdirToSnapCommon := .ok (),
    loadUctData := .ok [],
    runScan := fun _ _ _ => .ok [], formatOutput := fun _ => .ok ("", 0) }

/-- A command line that omits the priority option. -/
def sampleCliInput : CliInput :=
  { cve := none, priority := none, silent := false, ovalFile := none,
    manifestFile := none, nagios := false, uctLinks := false,
    unresolved := false, verbose := false, experimental := false }

/-- A command line with an out-of-range priority value. -/
def badPriorityInput : CliInput :=
  { cve := none, priority := some "bogus", silent := false, ovalFile := none,
    manifestFile := none, nagios := false, uctLinks := false,
    unresolved := false, verbose := false, experimental := false }

/-! ### Order theory of the version comparator -/

/-- The numeric comparison answers `.lt` exactly on smaller inputs. -/
theorem natCmp_eq_lt {a b : Nat} : natCmp a b = .lt ↔ a < b := by
  unfold natCmp
  split_ifs with h1 h2
  · simpa using h1
  · simp only [reduceCtorEq, false_iff]; omega
  · simp only [reduceCtorEq, false_iff]; omega

/-- The numeric comparison answers `.eq` exactly on equal inputs. -/
theorem natCmp_eq_eq {a b : Nat} : natCmp a b = .eq ↔ a = b := by
  unfold natCmp
  split_ifs with h1 h2
  · simp only [reduceCtorEq, false_iff]; omega
  · simp only [reduceCtorEq, false_iff]; omega
  · simp only [true_iff]; omega

/-- The numeric comparison answers `.gt` exactly on larger inputs. -/
theorem natCmp_eq_gt {a b : Nat} : natCmp a b = .gt ↔ b < a := by
  unfold natCmp
  split_ifs with h1 h2
  · simp only [reduceCtorEq, false_iff]; omega
  · simpa using h2
  · simp only [reduceCtorEq, false_iff]; omega

/-- The numeric comparison is oriented: swapping the arguments swaps the
answer. -/
theorem natCmp_swap (a b : Nat) : natCmp a b = (natCmp b a).swap := by
  unfold natCmp
  split_ifs <;> first | rfl | omega

/-- The numeric comparison composes transitively across a middle point. -/
theorem natCmp_transOk (a b c : Nat) :
    transOk (natCmp a b) (natCmp b c) (natCmp a c) := by
  refine ⟨?_, ?_, ?_, ?_⟩
  · intro h1 h2
    rw [natCmp_eq_lt] at h1 ⊢
    have h3 : ¬ c < b := fun hc => h2 (natCmp_eq_gt.mpr hc)
    omega
  · intro h
    rw [natCmp_eq_eq] at h
    subst h
    rfl
  · intro h
    rw [natCmp_eq_eq] at h
    subst h
    rfl
  · intro h1 h2
    rw [natCmp_eq_gt] at h1 ⊢
    have h3 : ¬ b < c := fun hc => h2 (natCmp_eq_lt.mpr hc)
    omega

/-- An `.eq` on the left composes with anything. -/
theorem transOk_left_eq (o : Ordering) : transOk .eq o o := by
  refine ⟨?_, ?_, ?_, ?_⟩
  · intro h
    exact nomatch h
  · intro _
    rfl
  · intro h
    exact h
  · intro h
    exact nomatch h

/-- An `.eq` on the right composes with anything. -/
theorem transOk_right_eq (o : Ordering) : transOk o .eq o := by
  refine ⟨?_, ?_, ?_, ?_⟩
  · intro h _
    exact h
  · intro h
    exact h
  · intro _
    rfl
  · intro h _
    exact h

/-- Opposite comparisons around a middle point compose to `.eq`. -/
theorem transOk_swap_eq {o1 o2 : Ordering} (h : o2 = o1.swap) :
    transOk o1 o2 .eq := by
  subst h
  cases o1 with
  | lt =>
      refine ⟨?_, ?_, ?_, ?_⟩
      · intro _ hg
        exact absurd rfl hg
      · intro h1
        exact nomatch h1
      · intro h1
        simp [Ordering.swap] at h1
      · intro h1
        exact nomatch h1
  | eq =>
      refine ⟨?_, ?_, ?_, ?_⟩
      · intro h1
        exact nomatch h1
      · intro _
        rfl
      · intro _
        rfl
      · intro h1
        exact nomatch h1
  | gt =>
      refine ⟨?_, ?_, ?_, ?_⟩
      · intro h1
        exact nomatch h1
      · intro h1
        exact nomatch h1
      · intro h1
        simp [Ordering.swap] at h1
      · intro _ hl
        exact absurd rfl hl

/-- Lexicographic composition preserves `transOk`. -/
theorem then_transOk {a1 a2 a3 b1 b2 b3 : Ordering}
    (ha : transOk a1 a2 a3) (hb : transOk b1 b2 b3) :
    transOk (a1.then b1) (a2.then b2) (a3.then b3) := by
  obtain ⟨ha1, ha2, ha3, ha4⟩ := ha
  obtain ⟨hb1, hb2, hb3, hb4⟩ := hb
  refine ⟨?_, ?_, ?_, ?_⟩
  · intro h1 h2
    rw [Ordering.then_eq_lt] at h1 ⊢
    rcases h1 with h1 | ⟨h1e, h1b⟩
    · have ha2ne : a2 ≠ .gt := fun hg => h2 (Ordering.then_eq_gt.mpr (Or.inl hg))
      exact Or.inl (ha1 h1 ha2ne)
    · have h3 : a3 = a2 := ha2 h1e
      cases hA2 : a2 with
      | lt => exact Or.inl (h3.trans hA2)
      | eq =>
          have hb2ne : b2 ≠ .gt := fun hg =>
            h2 (Ordering.then_eq_gt.mpr (Or.inr ⟨hA2, hg⟩))
          exact Or.inr ⟨h3.trans hA2, hb1 h1b hb2ne⟩
      | gt => exact absurd (Ordering.then_eq_gt.mpr (Or.inl hA2)) h2
  · intro h1
    rw [Ordering.then_eq_eq] at h1
    obtain ⟨h1a, h1b⟩ := h1
    rw [ha2 h1a, hb2 h1b]
  · intro h2
    rw [Ordering.then_eq_eq] at h2
    obtain ⟨h2a, h2b⟩ := h2
    rw [ha3 h2a, hb3 h2b]
  · intro h1 h2
    rw [Ordering.then_eq_gt] at h1 ⊢
    rcases h1 with h1 | ⟨h1e, h1b⟩
    · have ha2ne : a2 ≠ .lt := fun hg => h2 (Ordering.then_eq_lt.mpr (Or.inl hg))
      exact Or.inl (ha4 h1 ha2ne)
    · have h3 : a3 = a2 := ha2 h1e
      cases hA2 : a2 with
      | gt => exact Or.inl (h3.trans hA2)
      | eq =>
          have hb2ne : b2 ≠ .lt := fun hg =>
            h2 (Ordering.then_eq_lt.mpr (Or.inr ⟨hA2, hg⟩))
          exact Or.inr ⟨h3.trans hA2, hb4 h1b hb2ne⟩
      | lt => exact absurd (Ordering.then_eq_lt.mpr (Or.inl hA2)) h2

/-- Comparing against the exhausted side agrees with the one-sided helper. -/
theorem cmpPad_nil_right (a : List Nat) : cmpPad a [] = cmpPadNil a := by
  induction a with
  | nil => rfl
  | cons x xs ih => simp only [cmpPad, cmpPadNil, ih]

/-- The padded run comparison is oriented. -/
theorem cmpPad_swap (a : List Nat) : ∀ b : List Nat, cmpPad a b = (cmpPad b a).swap := by
  induction a with
  | nil =>
      intro b
      simp only [cmpPad, cmpPad_nil_right]
  | cons x xs ih =>
      intro b
      cases b with
      | nil =>
          simp only [cmpPad, cmpPadNil, cmpPad_nil_right, Ordering.swap_swap]
      | cons y ys =>
          simp only [cmpPad, Ordering.swap_then]
          rw [ih ys, natCmp_swap]

/-- Unfolding the padded run comparison when only the left side is
exhausted. -/
theorem cmpPad_nil_cons (b : Nat) (bs : List Nat) :
    cmpPad [] (b :: bs) = (natCmp 1 b).then (cmpPad [] bs) := by
  simp only [cmpPad, cmpPadNil, Ordering.swap_then]
  rw [← natCmp_swap]

/-- The padded run comparison composes transitively across a middle run. -/
theorem cmpPad_transOk : ∀ a b c : List Nat,
    transOk (cmpPad a b) (cmpPad b c) (cmpPad a c)
  | [], [], _ => transOk_left_eq _
  | [], _ :: _, [] => transOk_swap_eq (cmpPad_swap _ _)
  | [], b :: bs, c :: cs => by
      rw [cmpPad_nil_cons, cmpPad_nil_cons]
      exact then_transOk (natCmp_transOk 1 b c) (cmpPad_transOk [] bs cs)
  | _ :: _, [], [] => transOk_right_eq _
  | a :: as, [], c :: cs => by
      rw [cmpPad_nil_cons]
      exact then_transOk (natCmp_transOk a 1 c) (cmpPad_transOk as [] cs)
  | a :: as, b :: bs, [] =>
      then_transOk (natCmp_transOk a b 1) (cmpPad_transOk as bs [])
  | a :: as, b :: bs, c :: cs =>
      then_transOk (natCmp_transOk a b c) (cmpPad_transOk as bs cs)
termination_by a b c => a.length + b.length + c.length

/-- Comparing token lists against the exhausted side agrees with the
one-sided helper. -/
theorem cmpTokens_nil_right (a : List (List Nat × Nat)) :
    cmpTokens a [] = cmpTokensNil a := by
  induction a with
  | nil => rfl
  | cons t ts ih =>
      obtain ⟨s, n⟩ := t
      simp only [cmpTokens, cmpTokensNil, ih]

/-- The token-list comparison is oriented. -/
theorem cmpTokens_swap (a : List (List Nat × Nat)) :
    ∀ b : List (List Nat × Nat), cmpTokens a b = (cmpTokens b a).swap := by
  induction a with
  | nil =>
      intro b
      simp only [cmpTokens, cmpTokens_nil_right]
  | cons t ts ih =>
      obtain ⟨s, n⟩ := t
      intro b
      cases b with
      | nil =>
          simp only [cmpTokens, cmpTokensNil, cmpTokens_nil_right, Ordering.swap_swap]
      | cons u us =>
          obtain ⟨t2, m⟩ := u
          simp only [cmpTokens, Ordering.swap_then]
          rw [ih us, cmpPad_swap, natCmp_swap]

/-- Unfolding the token-list comparison when only the left side is
exhausted. -/
theorem cmpTokens_nil_cons (s : List Nat) (n : Nat) (ts : List (List Nat × Nat)) :
    cmpTokens [] ((s, n) :: ts) =
      (cmpPad [] s).then ((natCmp 0 n).then (cmpTokens [] ts)) := by
  simp only [cmpTokens, cmpTokensNil, Ordering.swap_then]
  rw [cmpPad_swap s [], natCmp_swap n 0]
  simp [Ordering.swap_swap]

/-- The token-list comparison composes transitively across a middle list. -/
theorem cmpTokens_transOk : ∀ a b c : List (List Nat × Nat),
    transOk (cmpTokens a b) (cmpTokens b c) (cmpTokens a c)
  | [], [], _ => transOk_left_eq _
  | [], _ :: _, [] => transOk_swap_eq (cmpTokens_swap _ _)
  | [], (t, m) :: bs, (u, k) :: cs => by
      rw [cmpTokens_nil_cons, cmpTokens_nil_cons]
      exact then_transOk (cmpPad_transOk [] t u)
        (then_transOk (natCmp_transOk 0 m k) (cmpTokens_transOk [] bs cs))
  | _ :: _, [], [] => transOk_right_eq _
  | (s, n) :: as, [], (u, k) :: cs => by
      rw [cmpTokens_nil_cons]
      exact then_transOk (cmpPad_transOk s [] u)
        (then_transOk (natCmp_transOk n 0 k) (cmpTokens_transOk as [] cs))
  | (s, n) :: as, (t, m) :: bs, [] =>
      then_transOk (cmpPad_transOk s t [])
        (then_transOk (natCmp_transOk n m 0) (cmpTokens_transOk as bs []))
  | (s, n) :: as, (t, m) :: bs, (u, k) :: cs =>
      then_transOk (cmpPad_transOk s t u)
        (then_transOk (natCmp_transOk n m k) (cmpTokens_transOk as bs cs))
termination_by a b c => a.length + b.length + c.length

/-- The version comparator is oriented: swapping the arguments swaps the
answer. -/
theorem versionCompare_swap (a b : String) :
    versionCompare b a = (versionCompare a b).swap := by
  unfold versionCompare
  rw [Ordering.swap_then, Ordering.swap_then, ← natCmp_swap,
    ← cmpTokens_swap, ← cmpTokens_swap]

/-- The version comparator composes transitively across a middle version. -/
theorem versionCompare_transOk (a b c : String) :
    transOk (versionCompare a b) (versionCompare b c) (versionCompare a c) := by
  unfold versionCompare
  exact then_transOk (natCmp_transOk _ _ _)
    (then_transOk (cmpTokens_transOk _ _ _) (cmpTokens_transOk _ _ _))

/-! ### The scan engine is a function of the package mapping only -/

mutual

/-- Criteria evaluation depends on the installed snapshot only through the
package-name lookups, not through the order of the association list. -/
theorem evalTree_congr (i i' : List (String × String))
    (h : ∀ p, pkgLookup i p = pkgLookup i' p) :
    ∀ t : CriteriaTree, evalTree i t = evalTree i' t
  | .leaf p f => by
      simp only [evalTree, leafMatches, h p]
  | .conj cs => by
      simp only [evalTree]
      exact evalConj_congr i i' h cs
  | .disj cs => by
      simp only [evalTree]
      exact evalDisj_congr i i' h cs

/-- Lookup-congruence for AND nodes. -/
theorem evalConj_congr (i i' : List (String × String))
    (h : ∀ p, pkgLookup i p = pkgLookup i' p) :
    ∀ ts : List CriteriaTree, evalConj i ts = evalConj i' ts
  | [] => rfl
  | c :: cs => by
      simp only [evalConj, evalTree_congr i i' h c, evalConj_congr i i' h cs]

/-- Lookup-congruence for OR nodes. -/
theorem evalDisj_congr (i i' : List (String × String))
    (h : ∀ p, pkgLookup i p = pkgLookup i' p) :
    ∀ ts : List CriteriaTree, evalDisj i ts = evalDisj i' ts
  | [] => rfl
  | c :: cs => by
      simp only [evalDisj, evalTree_congr i i' h c, evalDisj_congr i i' h cs]

end

/-- A single record's verdict depends only on the package mapping. -/
theorem scanRecord_congr (codename : String) (i i' : List (String × String))
    (h : ∀ p, pkgLookup i p = pkgLookup i' p) (r : VulnerabilityRecord) :
    scanRecord codename i r = scanRecord codename i' r := by
  unfold scanRecord
  rw [evalTree_congr i i' h r.criteria]

/-- The scan output depends only on the package mapping, never on the
iteration order of the snapshot. -/
theorem scan_congr (codename : String) (feed : List VulnerabilityRecord)
    (i i' : List (String × String))
    (h : ∀ p, pkgLookup i p = pkgLookup i' p) :
    scan codename feed i = scan codename feed i' := by
  unfold scan
  induction feed with
  | nil => rfl
  | cons r rs ih =>
      simp only [List.filterMap_cons, scanRecord_congr codename i i' h r, ih]

/-! ### Claims -/

/-- C1: the scan engine is deterministic: for every pair of runs on
identical inputs (release codename, feed, installed-package mapping), scan
returns identical, identically-ordered sequences of scan results, with no
hidden state and no dependence on the iteration order of the installed
mapping. -/
theorem C1_scan_deterministic :
    (∀ (codename : String) (feed : List VulnerabilityRecord)
        (installed : List (String × String)),
        scan codename feed installed = scan codename feed installed) ∧
    (∀ (codename : String) (feed : List VulnerabilityRecord)
        (installed installed' : List (String × String)),
        (∀ p : String, pkgLookup installed p = pkgLookup installed' p) →
        scan codename feed installed = scan codename feed installed') :=
  ⟨fun _ _ _ => rfl, fun c f i i' h => scan_congr c f i i' h⟩

/-- Witness for C1: two differently-ordered snapshots of the same mapping
give the same scan output on a concrete feed. -/
theorem C1_scan_deterministic_witness :
    scan "jammy" sampleFeed [("libfoo", "1.9-1"), ("bash", "5.0")] =
      scan "jammy" sampleFeed [("bash", "5.0"), ("libfoo", "1.9-1")] :=
  C1_scan_deterministic.2 "jammy" sampleFeed
    [("libfoo", "1.9-1"), ("bash", "5.0")] [("bash", "5.0"), ("libfoo", "1.9-1")]
    (by
      intro p
      by_cases h1 : p = "libfoo"
      · subst h1
        decide
      · by_cases h2 : p = "bash"
        · subst h2
          decide
        · simp [pkgLookup, h1, h2])

/-- C2: the version comparator is a total order on version strings: for all
versions a, b, c, exactly one of less, equal (in the comparator's sense),
greater holds, and less is transitive; the epoch dominates and the tilde
sorts below the empty string. -/
theorem C2_versionCompare_total_order :
    (∀ a b : String,
        (versionCompare a b = .lt ∧ versionCompare a b ≠ .eq ∧
            versionCompare b a ≠ .lt) ∨
        (versionCompare a b ≠ .lt ∧ versionCompare a b = .eq ∧
            versionCompare b a ≠ .lt) ∨
        (versionCompare a b ≠ .lt ∧ versionCompare a b ≠ .eq ∧
            versionCompare b a = .lt)) ∧
    (∀ a b c : String, versionCompare a b = .lt → versionCompare b c = .lt →
        versionCompare a c = .lt) ∧
    versionCompare "2:1.0" "1:9.0" = .gt ∧
    versionCompare "1.0~rc1" "1.0" = .lt := by
  refine ⟨?_, ?_, by decide, by decide⟩
  · intro a b
    cases h : versionCompare a b with
    | lt =>
        refine Or.inl ⟨rfl, by decide, ?_⟩
        rw [versionCompare_swap a b, h]
        decide
    | eq =>
        refine Or.inr (Or.inl ⟨by decide, rfl, ?_⟩)
        rw [versionCompare_swap a b, h]
        decide
    | gt =>
        refine Or.inr (Or.inr ⟨by decide, by decide, ?_⟩)
        rw [versionCompare_swap a b, h]
        decide
  · intro a b c h1 h2
    refine (versionCompare_transOk a b c).1 h1 ?_
    rw [h2]
    decide

/-- Witness for C2: transitivity applied at concrete versions. -/
theorem C2_versionCompare_total_order_witness :
    versionCompare "1.0" "1.0.1" = .lt ∧
    versionCompare "1.0.1" "1:0.5" = .lt ∧
    versionCompare "1.0" "1:0.5" = .lt :=
  ⟨by decide, by decide,
   C2_versionCompare_total_order.2.1 "1.0" "1.0.1" "1:0.5" (by decide) (by decide)⟩

/-- C3: a criteria leaf matches exactly when its package is installed and
either the fixed version is null or the installed version compares less
than the fixed version; in particular a null-fix leaf matches whenever its
package is installed, for every installed version string. -/
theorem C3_leaf_match_semantics :
    (∀ (p : String) (fv : Option String) (installed : List (String × String)),
        leafMatches p fv installed = true ↔
          ∃ v, pkgLookup installed p = some v ∧
            (fv = none ∨ ∃ f, fv = some f ∧ versionCompare v f = .lt)) ∧
    (∀ (p v : String) (rest : List (String × String)),
        leafMatches p none ((p, v) :: rest) = true) := by
  constructor
  · intro p fv installed
    cases hl : pkgLookup installed p with
    | none => simp [leafMatches, hl]
    | some v =>
        cases fv with
        | none => simp [leafMatches, hl]
        | some f =>
            simp only [leafMatches, hl]
            cases h2 : versionCompare v f <;> simp [h2] <;> rfl
  · intro p v rest
    simp [leafMatches, pkgLookup]

/-- C4: scan failure is atomic and loud: whenever loading the feed,
scanning or formatting raises, main prints an error to stderr and exits
with the (nagios-dependent) error code, and no scan results are emitted on
stdout. -/
theorem C4_failure_is_atomic_and_loud :
    ∀ (env : MainEnv) (opt : Opt) (pkgs : List (String × String)) (codename : String),
      env.mkOptions = .ok opt →
      env.getInstalled = .ok (pkgs, codename) →
      (exceptFailed env.loadUctData = true ∨
        (∃ uct, env.loadUctData = .ok uct ∧
          exceptFailed (env.runScan codename uct pkgs) = true) ∨
        (∃ uct rs, env.loadUctData = .ok uct ∧
          env.runScan codename uct pkgs = .ok rs ∧
          exceptFailed (env.formatOutput rs) = true)) →
      (mainModel env).stdoutLines = [] ∧
      (mainModel env).stderrLines ≠ [] ∧
      (mainModel env).exitCode =
        (if opt.nagiosMode then env.consts.nagiosUnknownReturnCode
         else env.consts.errorReturnCode) ∧
      MainEvent.resultsEmitted ∉ (mainModel env).events := by
  intro env opt pkgs codename hopt hinst hfail
  simp only [mainModel, hopt, hinst]
  cases hch : (if env.isSnap then env.chdirToSnapCommon else Except.ok ()) with
  | error e => simp [errOutcome]
  | ok u =>
      rcases hfail with hload | ⟨uct, hu, hscan⟩ | ⟨uct, rs, hu, hr, hfmt⟩
      · cases hl : env.loadUctData with
        | error e => simp [errOutcome]
        | ok uct =>
            rw [hl] at hload
            simp [exceptFailed] at hload
      · simp only [hu]
        cases hs : env.runScan codename uct pkgs with
        | error e => simp [errOutcome]
        | ok rs =>
            rw [hs] at hscan
            simp [exceptFailed] at hscan
      · simp only [hu, hr]
        cases hf : env.formatOutput rs with
        | error e => simp [errOutcome]
        | ok pr =>
            rw [hf] at hfmt
            simp [exceptFailed] at hfmt

/-- Witness for C4: a run whose feed load raises emits nothing on stdout
and exits with the error code. -/
theorem C4_failure_is_atomic_and_loud_witness :
    (mainModel envLoadFail).stdoutLines = [] ∧
    (mainModel envLoadFail).stderrLines ≠ [] ∧
    (mainModel envLoadFail).exitCode =
      (if sampleOpt.nagiosMode then envLoadFail.consts.nagiosUnknownReturnCode
       else envLoadFail.consts.errorReturnCode) ∧
    MainEvent.resultsEmitted ∉ (mainModel envLoadFail).events :=
  C4_failure_is_atomic_and_loud envLoadFail sampleOpt [("libfoo", "1.9-1")] "jammy"
    rfl rfl (Or.inl rfl)

/-- C5: caller misuse is rejected before scanning begins: when the Options
construction raises, main exits with the CLI error return code before any
feed is loaded and before scan is invoked. -/
theorem C5_options_errors_exit_before_scan :
    ∀ (env : MainEnv) (e : String),
      env.mkOptions = .error e →
      (mainModel env).exitCode = env.consts.cliErrorReturnCode ∧
      MainEvent.feedLoaded ∉ (mainModel env).events ∧
      MainEvent.scanRun ∉ (mainModel env).events ∧
      (mainModel env).stderrLines = ["Error: Invalid option or argument: " ++ e] := by
  intro env e h
  simp [mainModel, h, errOutcome]

/-- Witness for C5: a run whose options construction raises. -/
theorem C5_options_errors_exit_before_scan_witness :
    (mainModel envOptFail).exitCode = envOptFail.consts.cliErrorReturnCode ∧
    MainEvent.feedLoaded ∉ (mainModel envOptFail).events ∧
    MainEvent.scanRun ∉ (mainModel envOptFail).events ∧
    (mainModel envOptFail).stderrLines =
      ["Error: Invalid option or argument: " ++ "invalid priority"] :=
  C5_options_errors_exit_before_scan envOptFail "invalid priority" rfl

/-- C6: the two package-source providers are selected interchangeably: with
a manifest file given, `get_installed_pkgs_and_codename` returns exactly the
pair parsed from the manifest; otherwise it returns the live system's
installed packages and distribution codename. -/
theorem C6_package_source_providers :
    (∀ (pm : String → List (String × String) × String) (si : SysInfo) (f : String),
        f ≠ "" →
        get_installed_pkgs_and_codename pm si (some f) = pm f) ∧
    (∀ (pm : String → List (String × String) × String) (si : SysInfo),
        get_installed_pkgs_and_codename pm si none =
          (si.installedPackages, si.distribCodename)) := by
  constructor
  · intro pm si f hf
    simp [get_installed_pkgs_and_codename, hf]
  · intro pm si
    rfl

/-- Witness for C6: a concrete manifest run takes the parsed pair. -/
theorem C6_package_source_providers_witness :
    get_installed_pkgs_and_codename sampleManifestParse sampleSysInfo
      (some "manifest.txt") = sampleManifestParse "manifest.txt" :=
  C6_package_source_providers.1 sampleManifestParse sampleSysInfo "manifest.txt"
    (by decide)

/-- C7: a requested CVE identifier selects the CVE-specific formatter
irrespective of nagios mode, and that formatter drops every record with a
different vulnerability id. -/
theorem C7_single_cve_filter :
    (∀ (opt : Opt) (c : String), opt.cve = some c → c ≠ "" →
        load_output_formatter opt = .cveFormatter) ∧
    (∀ (cveId : String) (results : List ScanResult) (r : ScanResult),
        r ∈ results → r.vulnerabilityId ≠ cveId →
        r ∉ cveFormatterResults cveId results) := by
  constructor
  · intro opt c hc hne
    simp [load_output_formatter, optTruthy, hc, hne]
  · intro cveId results r _ hne hcontra
    simp only [cveFormatterResults, List.mem_filter, beq_iff_eq] at hcontra
    exact hne hcontra.2

/-- Witness for C7: a nagios-mode run with a CVE request still selects the
CVE formatter, and the CVE formatter drops a mismatching record. -/
theorem C7_single_cve_filter_witness :
    load_output_formatter sampleCveOpt = OutputFormatter.cveFormatter ∧
    sampleResult ∉ cveFormatterResults "CVE-2099-0001" [sampleResult] :=
  ⟨C7_single_cve_filter.1 sampleCveOpt "CVE-2020-1234" rfl (by decide),
   C7_single_cve_filter.2 "CVE-2099-0001" [sampleResult] sampleResult
     (List.mem_singleton.mpr rfl) (by decide)⟩

/-- C8 counterexample: the argument parser registers no include-not-affected
toggle, so the configuration surface is not exactly the one the claim
lists. -/
theorem C8_counterexample_no_not_affected_toggle :
    recognizedLongOptions.contains "--not-affected" = false := by decide

/-- C8 as amended: the configuration surface recognizes a priority
threshold restricted to critical, high, medium, all (any other value is
rejected before scanning), an optional single-CVE identifier and a boolean
include-unresolved toggle; there is no include-not-affected toggle, and the
remaining registered options are silent, oval-file, manifest-file, nagios,
uct-links, verbose and experimental. -/
theorem C8_amended_configuration_surface :
    priorityChoices = ["critical", "high", "medium", "all"] ∧
    (∀ (inp : CliInput) (p : String), inp.priority = some p →
        priorityChoices.contains p = false →
        ∃ e, parse_args inp = .error e) ∧
    recognizedLongOptions.contains "--cve" = true ∧
    recognizedLongOptions.contains "--unresolved" = true ∧
    recognizedLongOptions.contains "--not-affected" = false ∧
    recognizedLongOptions =
      ["--cve", "--priority", "--silent", "--oval-file", "--manifest-file",
       "--nagios", "--uct-links", "--unresolved", "--verbose", "--experimental"] := by
  refine ⟨rfl, ?_, by decide, by decide, by decide, rfl⟩
  intro inp p hp hnot
  refine ⟨"argument -p/--priority: invalid choice: " ++ p, ?_⟩
  have hm : p ∉ priorityChoices := by simpa using hnot
  simp [parse_args, hp, hm]

/-- Witness for C8: an out-of-range priority value is rejected. -/
theorem C8_amended_configuration_surface_witness :
    ∃ e, parse_args badPriorityInput = .error e :=
  C8_amended_configuration_surface.2.1 badPriorityInput "bogus" rfl (by decide)

/-- C9: when the priority option is not supplied, the parsed arguments
carry priority high, not all. -/
theorem C9_default_priority_is_high :
    ∀ inp : CliInput, inp.priority = none →
      ∃ a : CliArgs, parse_args inp = .ok a ∧
        a.priority = "high" ∧ a.priority ≠ "all" := by
  intro inp h
  refine ⟨⟨inp.cve, "high", inp.silent, inp.ovalFile, inp.manifestFile,
    inp.nagios, inp.uctLinks, inp.unresolved, inp.verbose, inp.experimental⟩,
    ?_, rfl, ?_⟩
  · simp [parse_args, h]
  · show ("high" : String) ≠ "all"
    decide

/-- Witness for C9: a command line without a priority option parses to
priority high. -/
theorem C9_default_priority_is_high_witness :
    ∃ a : CliArgs, parse_args sampleCliInput = .ok a ∧
      a.priority = "high" ∧ a.priority ≠ "all" :=
  C9_default_priority_is_high sampleCliInput rfl

/-- C10: unexpected-error exit codes depend on nagios mode: a failure while
loading the feed, scanning or formatting exits with the nagios unknown
return code when nagios mode is enabled, and with the generic error return
code otherwise. -/
theorem C10_unexpected_error_exit_code_per_nagios :
    ∀ (env : MainEnv) (opt : Opt) (pkgs : List (String × String)) (codename : String),
      env.mkOptions = .ok opt →
      env.getInstalled = .ok (pkgs, codename) →
      (exceptFailed env.loadUctData = true ∨
        (∃ uct, env.loadUctData = .ok uct ∧
          exceptFailed (env.runScan codename uct pkgs) = true) ∨
        (∃ uct rs, env.loadUctData = .ok uct ∧
          env.runScan codename uct pkgs = .ok rs ∧
          exceptFailed (env.formatOutput rs) = true)) →
      (opt.nagiosMode = true →
        (mainModel env).exitCode = env.consts.nagiosUnknownReturnCode) ∧
      (opt.nagiosMode = false →
        (mainModel env).exitCode = env.consts.errorReturnCode) := by
  intro env opt pkgs codename hopt hinst hfail
  simp only [mainModel, hopt, hinst]
  cases hch : (if env.isSnap then env.chdirToSnapCommon else Except.ok ()) with
  | error e =>
      constructor
      · intro hn
        simp [errOutcome, hn]
      · intro hn
        simp [errOutcome, hn]
  | ok u =>
      rcases hfail with hload | ⟨uct, hu, hscan⟩ | ⟨uct, rs, hu, hr, hfmt⟩
      · cases hl : env.loadUctData with
        | error e =>
            constructor
            · intro hn
              simp [errOutcome, hn]
            · intro hn
              simp [errOutcome, hn]
        | ok uct =>
            rw [hl] at hload
            simp [exceptFailed] at hload
      · simp only [hu]
        cases hs : env.runScan codename uct pkgs with
        | error e =>
            constructor
            · intro hn
              simp [errOutcome, hn]
            · intro hn
              simp [errOutcome, hn]
        | ok rs =>
            rw [hs] at hscan
            simp [exceptFailed] at hscan
      · simp only [hu, hr]
        cases hf : env.formatOutput rs with
        | error e =>
            constructor
            · intro hn
              simp [errOutcome, hn]
            · intro hn
              simp [errOutcome, hn]
        | ok pr =>
            rw [hf] at hfmt
            simp [exceptFailed] at hfmt

/-- Witness for C10: a nagios-mode run whose scanner raises exits with the
nagios unknown return code. -/
theorem C10_unexpected_error_exit_code_per_nagios_witness :
    (sampleNagiosOpt.nagiosMode = true →
      (mainModel envNagiosScanFail).exitCode =
        envNagiosScanFail.consts.nagiosUnknownReturnCode) ∧
    (sampleNagiosOpt.nagiosMode = false →
      (mainModel envNagiosScanFail).exitCode =
        envNagiosScanFail.consts.errorReturnCode) :=
  C10_unexpected_error_exit_code_per_nagios envNagiosScanFail sampleNagiosOpt
    [("libfoo", "1.9-1")] "jammy" rfl rfl
    (Or.inr (Or.inl ⟨sampleFeed, rfl, rfl⟩))
